import Mathlib

/-
  Verification development for the OpenThos SurfaceFlinger shader program cache:
    src/services/surfaceflinger/RenderEngine/ProgramCache.cpp
    src/services/surfaceflinger/RenderEngine/Description.cpp

  The C++ code is shallowly embedded below.  Pure functions (key derivation,
  shader-text generation) become Lean functions; the stateful cache and the GL
  side effects of useProgram/changeUniform become explicit state passing with a
  trace of emitted GL commands.  Machine integers (the packed 32-bit key word)
  are modelled as Nat with masking against an explicit 32-bit complement.
-/

namespace Android

/-- GLclampf scalars are modelled as rationals (their exact magnitudes are
never computed with in the code under verification; only the comparison
`mPlaneAlpha < 1` is ever performed on them). -/
abbrev GLclampf := ℚ

/-- 4x4 float matrix of the math library (external collaborator). -/
abbrev mat4 := Fin 4 → Fin 4 → ℚ

/-- The default-constructed `mat4` of the math library is the identity. -/
def mat4identity : mat4 := fun i j => if i = j then 1 else 0

/-- GLES enum `GL_TEXTURE_2D`. -/
def GL_TEXTURE_2D : Nat := 0x0DE1

/-- GLES enum `GL_TEXTURE_EXTERNAL_OES`. -/
def GL_TEXTURE_EXTERNAL_OES : Nat := 0x8D65

/-- Modelled from the spec: the `Texture` value object (its header is not in
src/); `computeKey` only reads its native target enum via
`getTextureTarget()`. -/
structure Texture where
  target : Nat
deriving DecidableEq

def Texture.getTextureTarget (t : Texture) : Nat := t.target

/-- Modelled from the spec: `Description` (Description.h is not in src/).
The fields are those written by Description.cpp together with the per-draw
scalar fields read by ProgramCache.cpp (`blurnum`, blur window bounds
`sx`/`bx`/`sy`/`by`, destination `hwWidth`/`hwHeight`).  The C++ field `by`
is a Lean keyword and is rendered `by_`. -/
structure Description where
  mPlaneAlpha : GLclampf
  mPremultipliedAlpha : Bool
  mOpaque : Bool
  mTextureEnabled : Bool
  mColorMatrixEnabled : Bool
  mIsWideGamut : Bool
  mBlur : Bool
  mFirstApp : Bool
  mTexture : Texture
  mColor : GLclampf × GLclampf × GLclampf × GLclampf
  mProjectionMatrix : mat4
  mColorMatrix : mat4
  blurnum : Int
  sx : GLclampf
  bx : GLclampf
  sy : GLclampf
  by_ : GLclampf
  hwWidth : Int
  hwHeight : Int

/-- `Description::Description()` (Description.cpp:29-37).  C++ default
construction leaves every field it does not mention indeterminate; the
indeterminate memory contents are passed in as `residue`, and the
constructor overwrites exactly the fields the source assigns
(`mPlaneAlpha`, `mPremultipliedAlpha`, `mOpaque`, `mTextureEnabled`,
`mColorMatrixEnabled`, and the `memset` of `mColor`). -/
def Description.ctor (residue : Description) : Description :=
  { residue with
    mPlaneAlpha := 1
    mPremultipliedAlpha := false
    mOpaque := true
    mTextureEnabled := false
    mColorMatrixEnabled := false
    mColor := (0, 0, 0, 0) }

def Description.setPlaneAlpha (d : Description) (planeAlpha : GLclampf) : Description :=
  { d with mPlaneAlpha := planeAlpha }

def Description.setPremultipliedAlpha (d : Description) (premultipliedAlpha : Bool) : Description :=
  { d with mPremultipliedAlpha := premultipliedAlpha }

def Description.setOpaque (d : Description) (b : Bool) : Description :=
  { d with mOpaque := b }

def Description.setBlur (d : Description) (blur : Bool) : Description :=
  { d with mBlur := blur }

def Description.setFirstApp (d : Description) (firstApp : Bool) : Description :=
  { d with mFirstApp := firstApp }

def Description.setTexture (d : Description) (texture : Texture) : Description :=
  { d with mTexture := texture, mTextureEnabled := true }

def Description.disableTexture (d : Description) : Description :=
  { d with mTextureEnabled := false }

def Description.setColor (d : Description) (red green blue alpha : GLclampf) : Description :=
  { d with mColor := (red, green, blue, alpha) }

def Description.setProjectionMatrix (d : Description) (mtx : mat4) : Description :=
  { d with mProjectionMatrix := mtx }

/-- `Description::setColorMatrix` (Description.cpp:82-86): the enable flag is
derived from whether the matrix differs from the identity. -/
def Description.setColorMatrix (d : Description) (mtx : mat4) : Description :=
  { d with mColorMatrix := mtx, mColorMatrixEnabled := decide (mtx ≠ mat4identity) }

def Description.getColorMatrix (d : Description) : mat4 := d.mColorMatrix

def Description.setWideGamut (d : Description) (wideGamut : Bool) : Description :=
  { d with mIsWideGamut := wideGamut }

/-- All ones in 32 bits; `~mask` on a `uint32_t` is `mask ^^^ mask32`. -/
def mask32 : Nat := 0xFFFFFFFF

/-- Modelled from the spec: `ProgramCache::Key` (ProgramCache.h is not in
src/) — "an opaque fixed-width bitmask partitioned into disjoint fields,
each a small enum packed into a reserved bit range".  The packed word is a
`uint32_t`.  The concrete shift assignment below is one consistent
realisation of the spec's disjoint-field table; every claim proved here
depends only on the fields being disjoint, not on their positions. -/
structure Key where
  mKey : Nat
deriving DecidableEq

namespace Key

def BLEND_SHIFT : Nat := 0
def BLEND_MASK : Nat := 1 <<< BLEND_SHIFT
def BLEND_PREMULT : Nat := 1 <<< BLEND_SHIFT
def BLEND_NORMAL : Nat := 0 <<< BLEND_SHIFT

def OPACITY_SHIFT : Nat := 1
def OPACITY_MASK : Nat := 1 <<< OPACITY_SHIFT
def OPACITY_OPAQUE : Nat := 1 <<< OPACITY_SHIFT
def OPACITY_TRANSLUCENT : Nat := 0 <<< OPACITY_SHIFT

def PLANE_ALPHA_SHIFT : Nat := 2
def PLANE_ALPHA_MASK : Nat := 1 <<< PLANE_ALPHA_SHIFT
def PLANE_ALPHA_LT_ONE : Nat := 1 <<< PLANE_ALPHA_SHIFT
def PLANE_ALPHA_EQ_ONE : Nat := 0 <<< PLANE_ALPHA_SHIFT

def TEXTURE_SHIFT : Nat := 3
def TEXTURE_MASK : Nat := 3 <<< TEXTURE_SHIFT
def TEXTURE_OFF : Nat := 0 <<< TEXTURE_SHIFT
def TEXTURE_EXT : Nat := 1 <<< TEXTURE_SHIFT
def TEXTURE_2D : Nat := 2 <<< TEXTURE_SHIFT

def COLOR_MATRIX_SHIFT : Nat := 5
def COLOR_MATRIX_MASK : Nat := 1 <<< COLOR_MATRIX_SHIFT
def COLOR_MATRIX_ON : Nat := 1 <<< COLOR_MATRIX_SHIFT
def COLOR_MATRIX_OFF : Nat := 0 <<< COLOR_MATRIX_SHIFT

def WIDE_GAMUT_SHIFT : Nat := 6
def WIDE_GAMUT_MASK : Nat := 1 <<< WIDE_GAMUT_SHIFT
def WIDE_GAMUT_ON : Nat := 1 <<< WIDE_GAMUT_SHIFT
def WIDE_GAMUT_OFF : Nat := 0 <<< WIDE_GAMUT_SHIFT

def BLUR_SHIFT : Nat := 7
def BLUR_MASK : Nat := 1 <<< BLUR_SHIFT
def BLUR_ON : Nat := 1 <<< BLUR_SHIFT
def BLUR_OFF : Nat := 0 <<< BLUR_SHIFT

def FIRSTAPP_SHIFT : Nat := 8
def FIRSTAPP_MASK : Nat := 1 <<< FIRSTAPP_SHIFT
def FIRSTAPP_TRUE : Nat := 1 <<< FIRSTAPP_SHIFT
def FIRSTAPP_FALSE : Nat := 0 <<< FIRSTAPP_SHIFT

/-- Spec 4.1: `set(mask, value)` "clears the bits of `mask` in the packed
word and ORs in `value`; returns self to allow chaining". -/
def set (k : Key) (mask value : Nat) : Key :=
  ⟨(k.mKey &&& (mask ^^^ mask32)) ||| value⟩

def getTextureTarget (k : Key) : Nat := k.mKey &&& TEXTURE_MASK

def isTexturing (k : Key) : Bool := k.getTextureTarget != TEXTURE_OFF

def hasPlaneAlpha (k : Key) : Bool := (k.mKey &&& PLANE_ALPHA_MASK) == PLANE_ALPHA_LT_ONE

def isPremultiplied (k : Key) : Bool := (k.mKey &&& BLEND_MASK) == BLEND_PREMULT

def isOpaque (k : Key) : Bool := (k.mKey &&& OPACITY_MASK) == OPACITY_OPAQUE

def hasColorMatrix (k : Key) : Bool := (k.mKey &&& COLOR_MATRIX_MASK) == COLOR_MATRIX_ON

def isWideGamut (k : Key) : Bool := (k.mKey &&& WIDE_GAMUT_MASK) == WIDE_GAMUT_ON

def isBlur (k : Key) : Bool := (k.mKey &&& BLUR_MASK) == BLUR_ON

end Key

/-- The `.set` chain of `ProgramCache::computeKey` with the eight selected
field values abstracted; `computeKey` below is this chain applied to the
source's conditionals, and proofs enumerate the finitely many field
values through this abstraction. -/
def packKey (t pa bl op cm wg b fa : Nat) : Key :=
  ((((((((Key.mk 0).set Key.TEXTURE_MASK t).set Key.PLANE_ALPHA_MASK pa).set
      Key.BLEND_MASK bl).set Key.OPACITY_MASK op).set Key.COLOR_MATRIX_MASK cm).set
      Key.WIDE_GAMUT_MASK wg).set Key.BLUR_MASK b).set Key.FIRSTAPP_MASK fa

/-- `ProgramCache::computeKey` (ProgramCache.cpp:118-140), one `.set` per
field exactly as in the source. -/
def computeKey (description : Description) : Key :=
  ((((((((Key.mk 0).set Key.TEXTURE_MASK
      (if description.mTextureEnabled = false then Key.TEXTURE_OFF
       else if description.mTexture.getTextureTarget = GL_TEXTURE_EXTERNAL_OES then Key.TEXTURE_EXT
       else if description.mTexture.getTextureTarget = GL_TEXTURE_2D then Key.TEXTURE_2D
       else Key.TEXTURE_OFF)).set Key.PLANE_ALPHA_MASK
      (if description.mPlaneAlpha < 1 then Key.PLANE_ALPHA_LT_ONE else Key.PLANE_ALPHA_EQ_ONE)).set
      Key.BLEND_MASK
      (if description.mPremultipliedAlpha then Key.BLEND_PREMULT else Key.BLEND_NORMAL)).set
      Key.OPACITY_MASK
      (if description.mOpaque then Key.OPACITY_OPAQUE else Key.OPACITY_TRANSLUCENT)).set
      Key.COLOR_MATRIX_MASK
      (if description.mColorMatrixEnabled then Key.COLOR_MATRIX_ON else Key.COLOR_MATRIX_OFF)).set
      Key.WIDE_GAMUT_MASK
      (if description.mIsWideGamut then Key.WIDE_GAMUT_ON else Key.WIDE_GAMUT_OFF)).set
      Key.BLUR_MASK
      (if description.mBlur then Key.BLUR_ON else Key.BLUR_OFF)).set
      Key.FIRSTAPP_MASK
      (if description.mFirstApp then Key.FIRSTAPP_TRUE else Key.FIRSTAPP_FALSE)

/-
  Shader text generation (ProgramCache.cpp:142-302).

  The C++ `Formatter` emits one line per `<<` application: the current
  indentation (four spaces per level), the appended text, then a newline.
  The only indentation changes are `indent` after "void main(void) {" and
  `dedent` before the closing "}", so the generated text is embedded as the
  list of emitted lines, with the single level of indentation of the
  entry-point body baked into the body-line literals.  Spec 9 names these
  conditional blocks; each is a section definition gated by the same
  predicate and in the same order as the source.
-/

/-- The two multi-line raw-string helper blocks are each emitted by a single
`<<`, so each is a single element of the line list.  Wide-gamut variant
(ProgramCache.cpp:190-215). -/
def wideGamutTransferBlock : String :=
  "
                  float OETF_sRGB(const float linear) \x7b
                      return linear <= 0.0031308 ?
                              linear * 12.92 : (pow(linear, 1.0 / 2.4) * 1.055) - 0.055;
                  \x7d

                  vec3 OETF_sRGB(const vec3 linear) \x7b
                      return vec3(OETF_sRGB(linear.r), OETF_sRGB(linear.g), OETF_sRGB(linear.b));
                  \x7d

                  vec3 OETF_scRGB(const vec3 linear) \x7b
                      return sign(linear.rgb) * OETF_sRGB(abs(linear.rgb));
                  \x7d

                  float EOTF_sRGB(float srgb) \x7b
                      return srgb <= 0.04045 ? srgb / 12.92 : pow((srgb + 0.055) / 1.055, 2.4);
                  \x7d

                  vec3 EOTF_sRGB(const vec3 srgb) \x7b
                      return vec3(EOTF_sRGB(srgb.r), EOTF_sRGB(srgb.g), EOTF_sRGB(srgb.b));
                  \x7d

                  vec3 EOTF_scRGB(const vec3 srgb) \x7b
                      return sign(srgb.rgb) * EOTF_sRGB(abs(srgb.rgb));
                  \x7d
            "

/-- Identity-passthrough variant (ProgramCache.cpp:217-225). -/
def passthroughTransferBlock : String :=
  "
                  vec3 OETF_scRGB(const vec3 linear) \x7b
                      return linear;
                  \x7d

                  vec3 EOTF_scRGB(const vec3 srgb) \x7b
                      return srgb;
                  \x7d
            "

/-- ProgramCache.cpp:162-164. -/
def extensionSection (needs : Key) : List String :=
  if needs.getTextureTarget == Key.TEXTURE_EXT then
    [ "#extension GL_OES_EGL_image_external : require" ]
  else []

/-- ProgramCache.cpp:169-177: sampler/flat-color declarations by target. -/
def samplerSection (needs : Key) : List String :=
  if needs.getTextureTarget == Key.TEXTURE_EXT then
    [ "uniform samplerExternalOES sampler;"
    , "varying vec2 outTexCoords;" ]
  else if needs.getTextureTarget == Key.TEXTURE_2D then
    [ "uniform sampler2D sampler;"
    , "varying vec2 outTexCoords;" ]
  else if needs.getTextureTarget == Key.TEXTURE_OFF then
    [ "uniform vec4 color;" ]
  else []

/-- ProgramCache.cpp:178-180. -/
def planeAlphaDeclSection (needs : Key) : List String :=
  if needs.hasPlaneAlpha then [ "uniform float alphaPlane;" ] else []

/-- ProgramCache.cpp:181-183. -/
def colorMatrixDeclSection (needs : Key) : List String :=
  if needs.hasColorMatrix then [ "uniform mat4 colorMatrix;" ] else []

/-- ProgramCache.cpp:184-227: one of the two transfer-function helper blocks,
present exactly when the key has a color matrix, chosen by wide gamut. -/
def transferSection (needs : Key) : List String :=
  if needs.hasColorMatrix then
    if needs.isWideGamut then [ wideGamutTransferBlock ]
    else [ passthroughTransferBlock ]
  else []

/-- ProgramCache.cpp:230-237. -/
def blurDeclSection (needs : Key) : List String :=
  if needs.isBlur then
    [ "uniform float iterator;"
    , "uniform float saturation;"
    , "uniform float sx;"
    , "uniform float bx;"
    , "uniform float sy;"
    , "uniform float by;" ]
  else []

/-- ProgramCache.cpp:239-243: the base color of the entry-point body. -/
def baseColorSection (needs : Key) : List String :=
  if needs.isTexturing then
    [ "    gl_FragColor = texture2D(sampler, outTexCoords);" ]
  else
    [ "    gl_FragColor = color;" ]

/-- ProgramCache.cpp:244-271: the blur body. -/
def blurBodySection (needs : Key) : List String :=
  if needs.isBlur then
    [ "    vec2 resolution = vec2(1.0f / float(rWidth), 1.0f / float(rHeight));"
    , "    vec2 pixelSize = resolution * 4.0f;"
    , "    vec2 halfPixelSize = pixelSize / 2.0f;"
    , "    vec2 dUV = (pixelSize.xy * vec2(iterator, iterator)) + halfPixelSize.xy;"
    , "    vec3 cOut, cOut0, cOut1, cOut2, cOut3, cOut4;"
    , "    float x1, y1, x2, y2;"
    , "    float set = 0.45f;"
    , "    x1 = outTexCoords.x - dUV.x;"
    , "    x2 = outTexCoords.x + dUV.x;"
    , "    y1 = outTexCoords.y - dUV.y;"
    , "    y2 = outTexCoords.y + dUV.y;"
    , "    if(x1 < sx) x1 = outTexCoords.x;"
    , "    if(x2 > bx) x2 = outTexCoords.x;"
    , "    if(y1 < sy) y1 = outTexCoords.y;"
    , "    if(y2 > by) y2 = outTexCoords.y;"
    , "    cOut = texture2D(sampler, outTexCoords).xyz;"
    , "    cOut1 = texture2D(sampler, vec2(x1, y1)).xyz;"
    , "    cOut2 = texture2D(sampler, vec2(x1, y2)).xyz;"
    , "    cOut3 = texture2D(sampler, vec2(x2, y1)).xyz;"
    , "    cOut4 = texture2D(sampler, vec2(x2, y2)).xyz;"
    , "    cOut  = cOut + cOut1 + cOut2 + cOut3 + cOut4;"
    , "    cOut *= 0.2f;"
    , "    const vec3 W = vec3(0.2125, 0.7154, 0.0721);"
    , "    vec3 intensity = vec3(dot(cOut.rgb, W));"
    , "    cOut.rgb = mix(intensity, cOut.rgb, saturation);"
    , "    gl_FragColor = vec4(cOut.xyz, 1.0f);" ]
  else []

/-- ProgramCache.cpp:272-274. -/
def opacitySection (needs : Key) : List String :=
  if needs.isOpaque then [ "    gl_FragColor.a = 1.0;" ] else []

/-- ProgramCache.cpp:275-283. -/
def planeAlphaBodySection (needs : Key) : List String :=
  if needs.hasPlaneAlpha then
    if needs.isPremultiplied then [ "    gl_FragColor *= alphaPlane;" ]
    else [ "    gl_FragColor.a *= alphaPlane;" ]
  else []

/-- ProgramCache.cpp:289: divide rgb by alpha plus the 0.0019 epsilon. -/
def unpremultiplyLine : String :=
  "    gl_FragColor.rgb = gl_FragColor.rgb / (gl_FragColor.a + 0.0019);"

/-- ProgramCache.cpp:291: the color-matrix multiply. -/
def colorTransformLine : String :=
  "    vec4 transformed = colorMatrix * vec4(EOTF_scRGB(gl_FragColor.rgb), 1);"

/-- ProgramCache.cpp:296: multiply rgb by alpha plus the same 0.0019 epsilon. -/
def repremultiplyLine : String :=
  "    gl_FragColor.rgb = gl_FragColor.rgb * (gl_FragColor.a + 0.0019);"

/-- ProgramCache.cpp:285-298: the color-matrix transform with its
un-premultiply / re-premultiply bracketing. -/
def colorMatrixBodySection (needs : Key) : List String :=
  if needs.hasColorMatrix then
    (if !needs.isOpaque && needs.isPremultiplied then [ unpremultiplyLine ] else [])
    ++ [ colorTransformLine
       , "    gl_FragColor.rgb = OETF_scRGB(transformed.rgb);" ]
    ++ (if !needs.isOpaque && needs.isPremultiplied then [ repremultiplyLine ] else [])
  else []

/-- `ProgramCache::generateFragmentShader` (ProgramCache.cpp:160-302) as the
list of lines it emits, in source order. -/
def fragmentShaderLines (needs : Key) : List String :=
  extensionSection needs
  ++ [ "precision mediump float;" ]
  ++ samplerSection needs
  ++ planeAlphaDeclSection needs
  ++ colorMatrixDeclSection needs
  ++ transferSection needs
  ++ [ "uniform int rWidth;"
     , "uniform int rHeight;" ]
  ++ blurDeclSection needs
  ++ [ "void main(void) \x7b" ]
  ++ baseColorSection needs
  ++ blurBodySection needs
  ++ opacitySection needs
  ++ planeAlphaBodySection needs
  ++ colorMatrixBodySection needs
  ++ [ "\x7d" ]

/-- `ProgramCache::generateVertexShader` (ProgramCache.cpp:142-158) as the
list of lines it emits. -/
def vertexShaderLines (needs : Key) : List String :=
  (if needs.isTexturing then
     [ "attribute vec4 texCoords;"
     , "varying vec2 outTexCoords;" ]
   else [])
  ++ [ "attribute vec4 position;"
     , "uniform mat4 projection;"
     , "uniform mat4 texture;"
     , "void main(void) \x7b"
     , "    gl_Position = projection * position;" ]
  ++ (if needs.isTexturing then
        [ "    outTexCoords = (texture * texCoords).st;" ]
      else [])
  ++ [ "\x7d" ]

/-- The `String8` returned by `Formatter::getString`: each emitted line is
followed by a newline. -/
def linesToText (lines : List String) : String :=
  String.join (lines.map (fun l => l ++ "\n"))

def generateFragmentShader (needs : Key) : String :=
  linesToText (fragmentShaderLines needs)

def generateVertexShader (needs : Key) : String :=
  linesToText (vertexShaderLines needs)

/-
  Vocabulary for claim C2 ("every identifier the entry-point body references
  is declared earlier"): an occurrence of an identifier in a line of GLSL
  text, delimited on both sides by non-identifier characters, and what it
  means for a line to declare an identifier.
-/

/-- Characters that may make up a GLSL identifier. -/
def identChar (c : Char) : Bool := c.isAlphanum || c == '_'

/-- Does `pat` occur at the head of `l`, preceded by `prev` and followed by a
non-identifier character (or an end of line)? -/
def occursHere (pat : List Char) (prev : Option Char) (l : List Char) : Bool :=
  pat.isPrefixOf l
    && (match prev with
        | none => true
        | some c => !identChar c)
    && (match l.drop pat.length with
        | [] => true
        | c :: _ => !identChar c)

/-- Scan of a line for a delimited occurrence of `pat`. -/
def occursAux (pat : List Char) (prev : Option Char) : List Char → Bool
  | [] => false
  | c :: rest => occursHere pat prev (c :: rest) || occursAux pat (some c) rest

/-- `ident` occurs in `line` as a whole identifier (not as a fragment of a
longer identifier). -/
def occursAsIdent (ident line : String) : Bool :=
  occursAux ident.data none line.data

/-- A GLSL line declares `ident` when it is a uniform/varying/attribute
declaration mentioning `ident` as an identifier. -/
def declaresIdent (ident line : String) : Bool :=
  ("uniform ".data.isPrefixOf line.data || "varying ".data.isPrefixOf line.data
      || "attribute ".data.isPrefixOf line.data)
    && occursAsIdent ident line

/-
  The cache and the per-draw protocol (ProgramCache.cpp:89-116, 304-383).

  `Program` is an external collaborator (spec 2): construct from the two
  source texts, `isValid()` (link result), `use()`, `getUniform(name)` and
  the `glUniform1i/1f` primitives.  Link success is driver behaviour, so it
  is a parameter `linkOk : Key → Bool` of every operation that compiles.
  Heap identity of the `new Program` allocations is modelled by a creation
  counter `nextId`; the GL side effects of a call are returned as a trace of
  commands.
-/

/-- A compiled program object.  `progId` is the identity of the allocation,
`valid` the link result. -/
structure Program where
  progId : Nat
  needs : Key
  vertexShader : String
  fragmentShader : String
  valid : Bool
deriving DecidableEq

/-- GL side effects performed by `useProgram`/`changeUniform`: generation
and compilation of a program for a key, `Program::use`,
`Program::setUniforms(description)`, and single uniform writes through
`getUniform`. -/
inductive GLCmd where
  | generate (needs : Key)
  | useProg (progId : Nat)
  | setUniforms (progId : Nat)
  | uniform1i (progId : Nat) (name : String) (value : Int)
  | uniform1f (progId : Nat) (name : String) (value : ℚ)
deriving DecidableEq

/-- The cache `mCache : KeyedVector<Key, Program*>` plus the allocation
counter. -/
structure CacheState where
  entries : List (Key × Program)
  nextId : Nat
deriving DecidableEq

/-- The freshly constructed, not yet primed cache. -/
def emptyCache : CacheState := ⟨[], 0⟩

/-- `mCache.valueFor(key)`: the program stored for `key`, if any. -/
def valueFor (s : CacheState) (k : Key) : Option Program :=
  match s.entries.find? (fun e => decide (e.1 = k)) with
  | some e => some e.2
  | none => none

/-- `ProgramCache::generateProgram` (ProgramCache.cpp:304-313): generate both
shader texts and construct (`new`) a `Program` from them; the driver's link
result for the key is `linkOk needs`. -/
def generateProgram (linkOk : Key → Bool) (needs : Key) (s : CacheState) :
    Program × CacheState :=
  (⟨s.nextId, needs, generateVertexShader needs, generateFragmentShader needs,
      linkOk needs⟩,
   ⟨s.entries, s.nextId + 1⟩)

/-- The tail of `ProgramCache::useProgram` (ProgramCache.cpp:348-382): if the
program linked, activate it, write its description uniforms, always write
the destination width/height, and when the key has blur the window bounds
and the (iterator, saturation) pair selected by `blurnum`. -/
def useProgramUniforms (program : Program) (needs : Key) (description : Description) :
    List GLCmd :=
  if program.valid then
    [ GLCmd.useProg program.progId
    , GLCmd.setUniforms program.progId
    , GLCmd.uniform1i program.progId "rHeight" description.hwHeight
    , GLCmd.uniform1i program.progId "rWidth" description.hwWidth ]
    ++ (if needs.isBlur then
          [ GLCmd.uniform1f program.progId "sx" description.sx
          , GLCmd.uniform1f program.progId "bx" description.bx
          , GLCmd.uniform1f program.progId "sy" description.sy
          , GLCmd.uniform1f program.progId "by" description.by_ ]
          ++ (if description.blurnum = 1 then
                [ GLCmd.uniform1f program.progId "iterator" 0
                , GLCmd.uniform1f program.progId "saturation" 1 ]
              else if description.blurnum = 2 then
                [ GLCmd.uniform1f program.progId "iterator" 1
                , GLCmd.uniform1f program.progId "saturation" 1 ]
              else if description.blurnum = 3 then
                [ GLCmd.uniform1f program.progId "iterator" 2
                , GLCmd.uniform1f program.progId "saturation" 1 ]
              else if description.blurnum = 4 then
                [ GLCmd.uniform1f program.progId "iterator" 3
                , GLCmd.uniform1f program.progId "saturation" 1 ]
              else if description.blurnum = 5 then
                [ GLCmd.uniform1f program.progId "iterator" 4
                , GLCmd.uniform1f program.progId "saturation" 1 ]
              else if description.blurnum = 6 then
                [ GLCmd.uniform1f program.progId "iterator" 4
                , GLCmd.uniform1f program.progId "saturation" 1 ]
              else if description.blurnum = 7 then
                [ GLCmd.uniform1f program.progId "iterator" 5
                , GLCmd.uniform1f program.progId "saturation" 2 ]
              else [])
        else [])
  else []

/-- `ProgramCache::useProgram` (ProgramCache.cpp:330-383): compute the key,
look it up, on a miss generate and add the program, then perform the
uniform-binding tail. -/
def useProgram (linkOk : Key → Bool) (description : Description) (s : CacheState) :
    CacheState × List GLCmd :=
  let needs := computeKey description
  match valueFor s needs with
  | some program => (s, useProgramUniforms program needs description)
  | none =>
      let pr := generateProgram linkOk needs s
      (⟨pr.2.entries ++ [(needs, pr.1)], pr.2.nextId⟩,
       GLCmd.generate needs :: useProgramUniforms pr.1 needs description)

/-- `ProgramCache::changeUniform` (ProgramCache.cpp:315-328): a pure
uniform-update path; returns without effect when the program is absent or
the key has no blur, otherwise writes the two blur-number uniforms selected
by the parity of `blurnum`.  It never mutates the cache. -/
def changeUniform (description : Description) (s : CacheState) :
    CacheState × List GLCmd :=
  let needs := computeKey description
  match valueFor s needs with
  | none => (s, [])
  | some program =>
      if !needs.isBlur then (s, [])
      else if description.blurnum % 2 = 0 then
        (s, [ GLCmd.uniform1i program.progId "blurnum1" description.blurnum
            , GLCmd.uniform1i program.progId "blurnum2" 0 ])
      else
        (s, [ GLCmd.uniform1i program.progId "blurnum2" description.blurnum
            , GLCmd.uniform1i program.progId "blurnum1" 0 ])

/-- The mask enumerated by `primeCache` (ProgramCache.cpp:91-92). -/
def primeKeyMask : Nat :=
  Key.BLEND_MASK ||| Key.OPACITY_MASK ||| Key.PLANE_ALPHA_MASK ||| Key.TEXTURE_MASK

/-- One iteration of the priming loop (ProgramCache.cpp:97-112): build the
key for `keyVal`, skip unreachable texture targets, and generate+insert the
program when absent. -/
def primeStep (linkOk : Key → Bool) (keyVal : Nat) (s : CacheState) : CacheState :=
  let shaderKey := (Key.mk 0).set primeKeyMask keyVal
  let tex := shaderKey.getTextureTarget
  if tex ≠ Key.TEXTURE_OFF ∧ tex ≠ Key.TEXTURE_EXT ∧ tex ≠ Key.TEXTURE_2D then s
  else
    match valueFor s shaderKey with
    | some _ => s
    | none =>
        let pr := generateProgram linkOk shaderKey s
        ⟨pr.2.entries ++ [(shaderKey, pr.1)], pr.2.nextId⟩

/-- `ProgramCache::primeCache` (ProgramCache.cpp:89-116): iterate `keyVal`
from 0 to `keyMask` inclusive. -/
def primeCache (linkOk : Key → Bool) (s : CacheState) : CacheState :=
  (List.range (primeKeyMask + 1)).foldl (fun st v => primeStep linkOk v st) s

/-
  Concrete fixtures used by witnesses and counterexamples.
-/

/-- The zero matrix. -/
def mat0 : mat4 := fun _ _ => 0

/-- A fully specified basic description: untextured, opaque, plane alpha 1,
no color matrix, no blur. -/
def dBase : Description :=
  { mPlaneAlpha := 1
    mPremultipliedAlpha := false
    mOpaque := true
    mTextureEnabled := false
    mColorMatrixEnabled := false
    mIsWideGamut := false
    mBlur := false
    mFirstApp := false
    mTexture := ⟨GL_TEXTURE_2D⟩
    mColor := (0, 0, 0, 0)
    mProjectionMatrix := mat0
    mColorMatrix := mat0
    blurnum := 0
    sx := 0
    bx := 0
    sy := 0
    by_ := 0
    hwWidth := 0
    hwHeight := 0 }

/-- `dBase` with a different plane-alpha magnitude. -/
def dLowAlpha : Description := { dBase with mPlaneAlpha := 0 }

/-- `dBase` with a different blur tap index (a scalar field). -/
def dBlurnum5 : Description := { dBase with blurnum := 5 }

/-- A description with blur enabled and texturing disabled; its key has
exactly the BLUR bit set. -/
def dBlurNoTex : Description := { dBase with mBlur := true, mOpaque := false }

/-- A blur description with a 2D texture and tap index 7. -/
def dBlur7 : Description :=
  { dBase with
    mBlur := true
    mTextureEnabled := true
    blurnum := 7
    sx := 1
    bx := 2
    sy := 3
    by_ := 4
    hwWidth := 100
    hwHeight := 200 }

def kBlur7 : Key := computeKey dBlur7

/-- A successfully linked program for `kBlur7`. -/
def pBlur7 : Program :=
  ⟨0, kBlur7, generateVertexShader kBlur7, generateFragmentShader kBlur7, true⟩

def sBlur7 : CacheState := ⟨[(kBlur7, pBlur7)], 1⟩

def kBase : Key := computeKey dBase

/-- A program for `kBase` whose link failed. -/
def pBad : Program :=
  ⟨0, kBase, generateVertexShader kBase, generateFragmentShader kBase, false⟩

def sBad : CacheState := ⟨[(kBase, pBad)], 1⟩

/-- Indeterminate constructor residue whose color field is nonzero. -/
def rColor1 : Description := { dBase with mColor := (1, 0, 0, 0) }

/-- C1's shape fields: the claim's "differ only in scalar (non-shape)
fields" for two descriptions is agreement on all the other — shape —
fields: blend mode, opacity, texturing and target, color-matrix enable,
wide gamut, blur, first-app. -/
def sameShapeFields (d1 d2 : Description) : Prop :=
  d1.mPremultipliedAlpha = d2.mPremultipliedAlpha ∧
  d1.mOpaque = d2.mOpaque ∧
  d1.mTextureEnabled = d2.mTextureEnabled ∧
  d1.mTexture = d2.mTexture ∧
  d1.mColorMatrixEnabled = d2.mColorMatrixEnabled ∧
  d1.mIsWideGamut = d2.mIsWideGamut ∧
  d1.mBlur = d2.mBlur ∧
  d1.mFirstApp = d2.mFirstApp

instance (d1 d2 : Description) : Decidable (sameShapeFields d1 d2) := by
  unfold sameShapeFields; infer_instance

/-
  Helper lemmas.
-/

/-- Every `Key` accessor on the packed word produced by the `.set` chain,
enumerated over the finitely many field values that `computeKey` can
select. -/
theorem packKey_accessors :
    ∀ t ∈ [Key.TEXTURE_OFF, Key.TEXTURE_EXT, Key.TEXTURE_2D],
    ∀ pa ∈ [Key.PLANE_ALPHA_EQ_ONE, Key.PLANE_ALPHA_LT_ONE],
    ∀ bl ∈ [Key.BLEND_NORMAL, Key.BLEND_PREMULT],
    ∀ op ∈ [Key.OPACITY_TRANSLUCENT, Key.OPACITY_OPAQUE],
    ∀ cm ∈ [Key.COLOR_MATRIX_OFF, Key.COLOR_MATRIX_ON],
    ∀ wg ∈ [Key.WIDE_GAMUT_OFF, Key.WIDE_GAMUT_ON],
    ∀ b ∈ [Key.BLUR_OFF, Key.BLUR_ON],
    ∀ fa ∈ [Key.FIRSTAPP_FALSE, Key.FIRSTAPP_TRUE],
      (packKey t pa bl op cm wg b fa).getTextureTarget = t ∧
      (packKey t pa bl op cm wg b fa).hasPlaneAlpha = (pa == Key.PLANE_ALPHA_LT_ONE) ∧
      (packKey t pa bl op cm wg b fa).isPremultiplied = (bl == Key.BLEND_PREMULT) ∧
      (packKey t pa bl op cm wg b fa).isOpaque = (op == Key.OPACITY_OPAQUE) ∧
      (packKey t pa bl op cm wg b fa).hasColorMatrix = (cm == Key.COLOR_MATRIX_ON) ∧
      (packKey t pa bl op cm wg b fa).isWideGamut = (wg == Key.WIDE_GAMUT_ON) ∧
      (packKey t pa bl op cm wg b fa).isBlur = (b == Key.BLUR_ON) ∧
      ((packKey t pa bl op cm wg b fa).mKey &&& Key.FIRSTAPP_MASK = fa) := by
  decide

/-- `computeKey` is the chain applied to the source's conditionals. -/
theorem computeKey_eq_packKey (d : Description) :
    computeKey d = packKey
      (if d.mTextureEnabled = false then Key.TEXTURE_OFF
       else if d.mTexture.getTextureTarget = GL_TEXTURE_EXTERNAL_OES then Key.TEXTURE_EXT
       else if d.mTexture.getTextureTarget = GL_TEXTURE_2D then Key.TEXTURE_2D
       else Key.TEXTURE_OFF)
      (if d.mPlaneAlpha < 1 then Key.PLANE_ALPHA_LT_ONE else Key.PLANE_ALPHA_EQ_ONE)
      (if d.mPremultipliedAlpha then Key.BLEND_PREMULT else Key.BLEND_NORMAL)
      (if d.mOpaque then Key.OPACITY_OPAQUE else Key.OPACITY_TRANSLUCENT)
      (if d.mColorMatrixEnabled then Key.COLOR_MATRIX_ON else Key.COLOR_MATRIX_OFF)
      (if d.mIsWideGamut then Key.WIDE_GAMUT_ON else Key.WIDE_GAMUT_OFF)
      (if d.mBlur then Key.BLUR_ON else Key.BLUR_OFF)
      (if d.mFirstApp then Key.FIRSTAPP_TRUE else Key.FIRSTAPP_FALSE) := rfl

/-- The value of every key field of `computeKey d` in terms of `d`. -/
theorem computeKey_fields (d : Description) :
    (computeKey d).getTextureTarget =
      (if d.mTextureEnabled = false then Key.TEXTURE_OFF
       else if d.mTexture.getTextureTarget = GL_TEXTURE_EXTERNAL_OES then Key.TEXTURE_EXT
       else if d.mTexture.getTextureTarget = GL_TEXTURE_2D then Key.TEXTURE_2D
       else Key.TEXTURE_OFF) ∧
    (computeKey d).hasPlaneAlpha = decide (d.mPlaneAlpha < 1) ∧
    (computeKey d).isPremultiplied = d.mPremultipliedAlpha ∧
    (computeKey d).isOpaque = d.mOpaque ∧
    (computeKey d).hasColorMatrix = d.mColorMatrixEnabled ∧
    (computeKey d).isWideGamut = d.mIsWideGamut ∧
    (computeKey d).isBlur = d.mBlur ∧
    ((computeKey d).mKey &&& Key.FIRSTAPP_MASK =
      if d.mFirstApp then Key.FIRSTAPP_TRUE else Key.FIRSTAPP_FALSE) := by
  have h := packKey_accessors
    (if d.mTextureEnabled = false then Key.TEXTURE_OFF
     else if d.mTexture.getTextureTarget = GL_TEXTURE_EXTERNAL_OES then Key.TEXTURE_EXT
     else if d.mTexture.getTextureTarget = GL_TEXTURE_2D then Key.TEXTURE_2D
     else Key.TEXTURE_OFF) (by split <;> (try split) <;> (try split) <;> decide)
    (if d.mPlaneAlpha < 1 then Key.PLANE_ALPHA_LT_ONE else Key.PLANE_ALPHA_EQ_ONE)
    (by split <;> decide)
    (if d.mPremultipliedAlpha then Key.BLEND_PREMULT else Key.BLEND_NORMAL)
    (by split <;> decide)
    (if d.mOpaque then Key.OPACITY_OPAQUE else Key.OPACITY_TRANSLUCENT)
    (by split <;> decide)
    (if d.mColorMatrixEnabled then Key.COLOR_MATRIX_ON else Key.COLOR_MATRIX_OFF)
    (by split <;> decide)
    (if d.mIsWideGamut then Key.WIDE_GAMUT_ON else Key.WIDE_GAMUT_OFF)
    (by split <;> decide)
    (if d.mBlur then Key.BLUR_ON else Key.BLUR_OFF)
    (by split <;> decide)
    (if d.mFirstApp then Key.FIRSTAPP_TRUE else Key.FIRSTAPP_FALSE)
    (by split <;> decide)
  rw [computeKey_eq_packKey]
  obtain ⟨e1, e2, e3, e4, e5, e6, e7, e8⟩ := h
  refine ⟨e1, ?_, ?_, ?_, ?_, ?_, ?_, e8⟩
  · rw [e2]; by_cases hpa : d.mPlaneAlpha < 1 <;> (simp [hpa]; try decide)
  · rw [e3]; cases d.mPremultipliedAlpha <;> decide
  · rw [e4]; cases d.mOpaque <;> decide
  · rw [e5]; cases d.mColorMatrixEnabled <;> decide
  · rw [e6]; cases d.mIsWideGamut <;> decide
  · rw [e7]; cases d.mBlur <;> decide

/-- C1 (counterexample): two descriptions that differ only in the scalar
plane-alpha magnitude (1 versus 0) do not map to the same Key — the
PLANE_ALPHA field of the key is derived from the comparison
`mPlaneAlpha < 1`, so crossing that threshold changes the key. -/
theorem computeKey_planeAlpha_crosses_key :
    sameShapeFields dBase dLowAlpha ∧ computeKey dBase ≠ computeKey dLowAlpha := by
  decide

/-- C1 (amended): `computeKey` is deterministic, and two descriptions that
differ only in scalar (non-shape) fields map to bitwise-equal Keys provided
their plane-alpha magnitudes lie on the same side of the `< 1` threshold
(the PLANE_ALPHA key field is derived from that comparison; all other
scalar fields — blur tap index, color-matrix entries, window bounds,
width/height, flat color, projection matrix — are never read by
`computeKey`). -/
theorem computeKey_scalar_invariant (d1 d2 : Description) :
    (d1 = d2 → computeKey d1 = computeKey d2) ∧
    (sameShapeFields d1 d2 → (d1.mPlaneAlpha < 1 ↔ d2.mPlaneAlpha < 1) →
      computeKey d1 = computeKey d2) := by
  refine ⟨fun he => by rw [he], fun hshape hpa => ?_⟩
  obtain ⟨h1, h2, h3, h4, h5, h6, h7, h8⟩ := hshape
  have hpa' : (d1.mPlaneAlpha < 1) = (d2.mPlaneAlpha < 1) := propext hpa
  simp only [computeKey, h1, h2, h3, h4, h5, h6, h7, h8, hpa']

/-- C1 witness: the amended invariance applied to two descriptions that
differ only in the blur tap index. -/
theorem computeKey_scalar_invariant_witness :
    computeKey dBase = computeKey dBase ∧
    sameShapeFields dBase dBlurnum5 ∧
    (dBase.mPlaneAlpha < 1 ↔ dBlurnum5.mPlaneAlpha < 1) ∧
    computeKey dBase = computeKey dBlurnum5 :=
  ⟨(computeKey_scalar_invariant dBase dBase).1 rfl, by decide, Iff.rfl,
   (computeKey_scalar_invariant dBase dBlurnum5).2 (by decide) Iff.rfl⟩

/-- C10 (counterexample): the constructor does not establish defined values
*only* for the five listed fields — it also zeroes the flat color, so the
color of a default-constructed description is determined (equal for any two
residues) rather than indeterminate. -/
theorem description_ctor_also_defines_color :
    (Description.ctor rColor1).mColor = (Description.ctor dBase).mColor ∧
    rColor1.mColor ≠ dBase.mColor := by
  decide

/-- C10 (amended): the constructor establishes defined values exactly for
plane-alpha, premultiplied, opaque, texture-enabled, color-matrix-enabled
and the flat color (zeroed); the blur, wide-gamut and first-app fields pass
the indeterminate residue through, so the BLUR, WIDE_GAMUT and FIRSTAPP
bits of `computeKey` on a default-constructed description equal the residue
values and are not determined by the constructor's postcondition. -/
theorem description_ctor_fields (r : Description) :
    (Description.ctor r).mPlaneAlpha = 1 ∧
    (Description.ctor r).mPremultipliedAlpha = false ∧
    (Description.ctor r).mOpaque = true ∧
    (Description.ctor r).mTextureEnabled = false ∧
    (Description.ctor r).mColorMatrixEnabled = false ∧
    (Description.ctor r).mColor = (0, 0, 0, 0) ∧
    (Description.ctor r).mBlur = r.mBlur ∧
    (Description.ctor r).mIsWideGamut = r.mIsWideGamut ∧
    (Description.ctor r).mFirstApp = r.mFirstApp ∧
    (computeKey (Description.ctor r)).isBlur = r.mBlur ∧
    (computeKey (Description.ctor r)).isWideGamut = r.mIsWideGamut ∧
    ((computeKey (Description.ctor r)).mKey &&& Key.FIRSTAPP_MASK =
      if r.mFirstApp then Key.FIRSTAPP_TRUE else Key.FIRSTAPP_FALSE) := by
  refine ⟨rfl, rfl, rfl, rfl, rfl, rfl, rfl, rfl, rfl, ?_, ?_, ?_⟩
  · exact (computeKey_fields (Description.ctor r)).2.2.2.2.2.2.1
  · exact (computeKey_fields (Description.ctor r)).2.2.2.2.2.1
  · exact (computeKey_fields (Description.ctor r)).2.2.2.2.2.2.2

/-- Whether a lookup succeeds depends only on the stored keys. -/
theorem valueFor_isSome (s : CacheState) (k : Key) :
    (valueFor s k).isSome = decide (k ∈ s.entries.map Prod.fst) := by
  obtain ⟨l, n⟩ := s
  induction l with
  | nil => rfl
  | cons e t ih =>
      by_cases he : e.1 = k
      · simp [valueFor, List.find?_cons, he]
      · have h1 : valueFor ⟨e :: t, n⟩ k = valueFor ⟨t, n⟩ k := by
          simp [valueFor, List.find?_cons, he]
        have h2 : (k ∈ (e :: t).map Prod.fst) ↔ (k ∈ t.map Prod.fst) := by
          simp only [List.map_cons, List.mem_cons]
          refine ⟨fun hk => hk.resolve_left fun hq => he hq.symm, Or.inr⟩
        rw [h1, ih]
        exact (decide_eq_decide.mpr h2).symm

/-- The keys inserted by one priming iteration do not depend on the link
oracle or on the stored programs. -/
theorem primeStep_keys_congr (l1 l2 : Key → Bool) (v : Nat) (s1 s2 : CacheState)
    (h : s1.entries.map Prod.fst = s2.entries.map Prod.fst) :
    (primeStep l1 v s1).entries.map Prod.fst =
      (primeStep l2 v s2).entries.map Prod.fst := by
  simp only [primeStep]
  split
  · exact h
  · have hsome : (valueFor s1 ((Key.mk 0).set primeKeyMask v)).isSome =
        (valueFor s2 ((Key.mk 0).set primeKeyMask v)).isSome := by
      rw [valueFor_isSome, valueFor_isSome, h]
    cases hv1 : valueFor s1 ((Key.mk 0).set primeKeyMask v) <;>
      cases hv2 : valueFor s2 ((Key.mk 0).set primeKeyMask v) <;>
        rw [hv1, hv2] at hsome <;> simp_all [generateProgram]

/-- Oracle independence of the whole priming loop. -/
theorem foldl_primeStep_keys_congr (l1 l2 : Key → Bool) (vs : List Nat)
    (s1 s2 : CacheState) (h : s1.entries.map Prod.fst = s2.entries.map Prod.fst) :
    ((vs.foldl (fun st v => primeStep l1 v st) s1).entries.map Prod.fst) =
      ((vs.foldl (fun st v => primeStep l2 v st) s2).entries.map Prod.fst) := by
  induction vs generalizing s1 s2 with
  | nil => exact h
  | cons v tl ih => exact ih _ _ (primeStep_keys_congr l1 l2 v s1 s2 h)

set_option maxHeartbeats 1000000 in
/-- The priming loop inserts exactly the keys 0..23: every value of the
combined BLEND/OPACITY/PLANE_ALPHA/TEXTURE mask except those whose texture
field is the unused fourth target value. -/
theorem primeCache_keys (linkOk : Key → Bool) :
    ((primeCache linkOk emptyCache).entries.map Prod.fst) =
      (List.range 24).map Key.mk := by
  unfold primeCache
  refine (foldl_primeStep_keys_congr linkOk (fun _ => false) _
    emptyCache emptyCache rfl).trans ?_
  decide

/-- C4: after `primeCache()` on the fresh cache, every combination of
texture target in OFF/EXTERNAL/2D with both values of each of the
PLANE_ALPHA, BLEND and OPACITY fields is present in the cache, and no
cached entry has any of the COLOR_MATRIX, BLUR, WIDE_GAMUT or FIRSTAPP
bits set. -/
theorem primeCache_coverage (linkOk : Key → Bool) :
    (∀ (ti : Fin 3) (bl op pa : Bool),
        (valueFor (primeCache linkOk emptyCache)
          (Key.mk (([Key.TEXTURE_OFF, Key.TEXTURE_EXT, Key.TEXTURE_2D].get ti)
            + (if pa then Key.PLANE_ALPHA_LT_ONE else Key.PLANE_ALPHA_EQ_ONE)
            + (if bl then Key.BLEND_PREMULT else Key.BLEND_NORMAL)
            + (if op then Key.OPACITY_OPAQUE else Key.OPACITY_TRANSLUCENT)))).isSome
          = true) ∧
    (((primeCache linkOk emptyCache).entries.map Prod.fst).all
      (fun k => k.mKey &&& (Key.COLOR_MATRIX_MASK ||| Key.BLUR_MASK |||
          Key.WIDE_GAMUT_MASK ||| Key.FIRSTAPP_MASK) == 0)) = true := by
  constructor
  · intro ti bl op pa
    rw [valueFor_isSome, primeCache_keys]
    fin_cases ti <;> cases bl <;> cases op <;> cases pa <;> decide
  · rw [primeCache_keys]
    decide

/-- Membership in a conditional block. -/
theorem mem_ite_lists {α : Type} (a : α) (c : Prop) [Decidable c] (l1 l2 : List α) :
    (a ∈ if c then l1 else l2) ↔ (c ∧ a ∈ l1) ∨ (¬c ∧ a ∈ l2) := by
  split <;> simp_all

/-- A sublist of the tail of an append is a sublist of the append. -/
theorem sublist_skip {α : Type} {T R : List α} (X : List α) (h : T.Sublist R) :
    T.Sublist (X ++ R) :=
  h.trans (List.sublist_append_right X R)

/-- Looking up in entries extended on the right still finds the old entry. -/
theorem valueFor_append (s : CacheState) (tail : List (Key × Program)) (n2 : Nat)
    {k : Key} {p : Program} (h : valueFor s k = some p) :
    valueFor ⟨s.entries ++ tail, n2⟩ k = some p := by
  unfold valueFor at h ⊢
  rw [List.find?_append]
  cases hf : s.entries.find? (fun e => decide (e.1 = k)) with
  | none => rw [hf] at h; exact absurd h (by simp)
  | some e => rw [hf] at h; simpa using h

/-- `changeUniform` never mutates the cache. -/
theorem changeUniform_fst (d : Description) (s : CacheState) :
    (changeUniform d s).1 = s := by
  simp only [changeUniform]
  cases hv : valueFor s (computeKey d)
  · simp [hv]
  · simp only [hv]
    split_ifs <;> rfl

/-- One priming iteration never removes or replaces an entry. -/
theorem primeStep_preserves (linkOk : Key → Bool) (v : Nat) {s : CacheState}
    {k : Key} {p : Program} (h : valueFor s k = some p) :
    valueFor (primeStep linkOk v s) k = some p := by
  simp only [primeStep]
  split
  · exact h
  · split
    · exact h
    · exact valueFor_append s _ _ h

/-- The priming loop never removes or replaces an entry. -/
theorem foldl_primeStep_preserves (linkOk : Key → Bool) (vs : List Nat)
    {s : CacheState} {k : Key} {p : Program} (h : valueFor s k = some p) :
    valueFor (vs.foldl (fun st v => primeStep linkOk v st) s) k = some p := by
  induction vs generalizing s with
  | nil => exact h
  | cons v tl ih => exact ih (primeStep_preserves linkOk v h)

/-- The uniform-binding tail of `useProgram` performs no generation. -/
theorem generate_not_mem_useProgramUniforms (k2 : Key) (p : Program) (k : Key)
    (d : Description) : GLCmd.generate k2 ∉ useProgramUniforms p k d := by
  cases hv : p.valid <;> cases hb : k.isBlur <;>
    simp [useProgramUniforms, hv, hb, mem_ite_lists]

/-- C2 (evaluation at the failing input): for the reachable key with BLUR on
and TEXTURE off — produced by `computeKey` for a blur-enabled untextured
description — the generated fragment shader references the identifiers
`sampler` and `outTexCoords` although no line of the shader declares
either, so the entry-point body uses identifiers that are never declared
(the sampler declarations are only emitted for texturing keys while the
blur body samples unconditionally). -/
theorem blur_untextured_shader_undeclared :
    computeKey dBlurNoTex = Key.mk Key.BLUR_ON ∧
    "    gl_FragColor = color;" ∈ fragmentShaderLines (Key.mk Key.BLUR_ON) ∧
    ((fragmentShaderLines (Key.mk Key.BLUR_ON)).any
        (fun l => occursAsIdent "sampler" l)) = true ∧
    ((fragmentShaderLines (Key.mk Key.BLUR_ON)).any
        (fun l => occursAsIdent "outTexCoords" l)) = true ∧
    ((fragmentShaderLines (Key.mk Key.BLUR_ON)).all
        (fun l => !declaresIdent "sampler" l)) = true ∧
    ((fragmentShaderLines (Key.mk Key.BLUR_ON)).all
        (fun l => !declaresIdent "outTexCoords" l)) = true := by
  decide

/-- C3: for every key with a color matrix, premultiplied blending and
translucent opacity, the generated fragment shader contains the
un-premultiply statement, then the color-matrix multiply, then the
re-premultiply statement, in that order; for every key with a color matrix
and opaque opacity, neither bracketing statement appears. -/
theorem colorMatrix_premultiply_bracketing (k : Key) :
    (k.hasColorMatrix = true → k.isPremultiplied = true → k.isOpaque = false →
      [unpremultiplyLine, colorTransformLine, repremultiplyLine].Sublist
        (fragmentShaderLines k)) ∧
    (k.hasColorMatrix = true → k.isOpaque = true →
      unpremultiplyLine ∉ fragmentShaderLines k ∧
      repremultiplyLine ∉ fragmentShaderLines k) := by
  constructor
  · intro hcm hpm hop
    have hbody : colorMatrixBodySection k =
        [unpremultiplyLine, colorTransformLine,
         "    gl_FragColor.rgb = OETF_scRGB(transformed.rgb);", repremultiplyLine] := by
      simp [colorMatrixBodySection, hcm, hpm, hop]
    unfold fragmentShaderLines
    simp only [List.append_assoc]
    iterate 13 refine sublist_skip _ ?_
    refine List.Sublist.trans ?_ (List.sublist_append_left _ _)
    rw [hbody]
    decide
  · intro hcm hop
    constructor <;>
      simp [fragmentShaderLines, extensionSection, samplerSection, planeAlphaDeclSection,
        colorMatrixDeclSection, transferSection, blurDeclSection, baseColorSection,
        blurBodySection, opacitySection, planeAlphaBodySection, colorMatrixBodySection,
        unpremultiplyLine, colorTransformLine, repremultiplyLine,
        wideGamutTransferBlock, passthroughTransferBlock,
        hcm, hop, mem_ite_lists]

/-- C3 witness: the bracketing at the key COLOR_MATRIX+PREMULT+TRANSLUCENT
(mKey 33) and its absence at the key COLOR_MATRIX+OPAQUE (mKey 34). -/
theorem colorMatrix_premultiply_bracketing_witness :
    [unpremultiplyLine, colorTransformLine, repremultiplyLine].Sublist
      (fragmentShaderLines (Key.mk 33)) ∧
    (unpremultiplyLine ∉ fragmentShaderLines (Key.mk 34) ∧
     repremultiplyLine ∉ fragmentShaderLines (Key.mk 34)) :=
  ⟨(colorMatrix_premultiply_bracketing (Key.mk 33)).1 rfl rfl rfl,
   (colorMatrix_premultiply_bracketing (Key.mk 34)).2 rfl rfl⟩

/-- C8: the generated fragment shader contains the external-sampler
capability declaration iff the texture target is EXTERNAL, contains the
wide-gamut transfer-function helper block iff the key has a color matrix
and is wide gamut, contains the identity-passthrough helper block iff the
key has a color matrix and is not wide gamut, and never contains both
blocks. -/
theorem fragment_shader_blocks (k : Key) :
    ("#extension GL_OES_EGL_image_external : require" ∈ fragmentShaderLines k ↔
        k.getTextureTarget = Key.TEXTURE_EXT) ∧
    (wideGamutTransferBlock ∈ fragmentShaderLines k ↔
        (k.hasColorMatrix = true ∧ k.isWideGamut = true)) ∧
    (passthroughTransferBlock ∈ fragmentShaderLines k ↔
        (k.hasColorMatrix = true ∧ k.isWideGamut = false)) ∧
    ¬(wideGamutTransferBlock ∈ fragmentShaderLines k ∧
      passthroughTransferBlock ∈ fragmentShaderLines k) := by
  have h : ("#extension GL_OES_EGL_image_external : require" ∈ fragmentShaderLines k ↔
        k.getTextureTarget = Key.TEXTURE_EXT) ∧
      (wideGamutTransferBlock ∈ fragmentShaderLines k ↔
        (k.hasColorMatrix = true ∧ k.isWideGamut = true)) ∧
      (passthroughTransferBlock ∈ fragmentShaderLines k ↔
        (k.hasColorMatrix = true ∧ k.isWideGamut = false)) := by
    refine ⟨?_, ?_, ?_⟩ <;>
      simp [fragmentShaderLines, extensionSection, samplerSection, planeAlphaDeclSection,
        colorMatrixDeclSection, transferSection, blurDeclSection, baseColorSection,
        blurBodySection, opacitySection, planeAlphaBodySection, colorMatrixBodySection,
        unpremultiplyLine, colorTransformLine, repremultiplyLine,
        wideGamutTransferBlock, passthroughTransferBlock, mem_ite_lists]
  refine ⟨h.1, h.2.1, h.2.2, fun hc => ?_⟩
  have h1 := (h.2.1.mp hc.1).2
  have h2 := (h.2.2.mp hc.2).2
  rw [h1] at h2
  exact absurd h2 (by decide)

/-- C5: once the cache maps a key to a program, the entry survives
`useProgram`, `changeUniform` and `primeCache` unchanged; a `useProgram`
whose description computes to that key leaves the cache untouched, binds
uniforms against exactly the cached program instance, and emits no
generation event. -/
theorem cached_program_stable (linkOk : Key → Bool) (d : Description)
    (s : CacheState) (k : Key) (p : Program)
    (hk : valueFor s k = some p) :
    valueFor (useProgram linkOk d s).1 k = some p ∧
    valueFor (changeUniform d s).1 k = some p ∧
    valueFor (primeCache linkOk s) k = some p ∧
    (computeKey d = k → useProgram linkOk d s = (s, useProgramUniforms p k d)) ∧
    (computeKey d = k → ∀ k2, GLCmd.generate k2 ∉ (useProgram linkOk d s).2) := by
  have h4 : computeKey d = k → useProgram linkOk d s = (s, useProgramUniforms p k d) := by
    intro hck
    simp only [useProgram, hck, hk]
  refine ⟨?_, ?_, ?_, h4, fun hck k2 => ?_⟩
  · cases hv : valueFor s (computeKey d) with
    | some q => simp only [useProgram, hv]; exact hk
    | none =>
        simp only [useProgram, hv, generateProgram]
        exact valueFor_append s _ _ hk
  · rw [changeUniform_fst]; exact hk
  · unfold primeCache; exact foldl_primeStep_preserves linkOk _ hk
  · rw [h4 hck]
    exact generate_not_mem_useProgramUniforms k2 p k d

/-- C5 witness: the stability conjunction at a concrete one-entry cache. -/
theorem cached_program_stable_witness :
    valueFor (useProgram (fun _ => true) dBlur7 sBlur7).1 kBlur7 = some pBlur7 ∧
    valueFor (changeUniform dBlur7 sBlur7).1 kBlur7 = some pBlur7 ∧
    valueFor (primeCache (fun _ => true) sBlur7) kBlur7 = some pBlur7 ∧
    useProgram (fun _ => true) dBlur7 sBlur7 =
      (sBlur7, useProgramUniforms pBlur7 kBlur7 dBlur7) ∧
    (∀ k2, GLCmd.generate k2 ∉ (useProgram (fun _ => true) dBlur7 sBlur7).2) := by
  have h := cached_program_stable (fun _ => true) dBlur7 sBlur7 kBlur7 pBlur7 rfl
  exact ⟨h.1, h.2.1, h.2.2.1, h.2.2.2.1 rfl, h.2.2.2.2 rfl⟩

/-- C6: when the cached program for a description's key failed to link,
`useProgram` neither activates any program nor writes any uniform, raises
nothing, and leaves the cache (including the invalid entry) unchanged, so
later calls with the same key behave identically and never regenerate. -/
theorem useProgram_invalid_silent (linkOk : Key → Bool) (d : Description)
    (s : CacheState) (p : Program)
    (hk : valueFor s (computeKey d) = some p) (hv : p.valid = false) :
    useProgram linkOk d s = (s, []) := by
  simp only [useProgram, hk, useProgramUniforms, hv]
  simp

/-- C6 witness: the silent no-op at a concrete cache holding an invalid
program. -/
theorem useProgram_invalid_silent_witness :
    useProgram (fun _ => true) dBase sBad = (sBad, []) :=
  useProgram_invalid_silent (fun _ => true) dBase sBad pBad rfl rfl

/-- C7: for a blur-enabled description whose program is cached and linked,
`useProgram` activates it, writes its description uniforms, always writes
the destination height and width, writes the four window-bound scalars, and
writes the (iterator, saturation) pair given by the fixed tap table
1→(0,1), 2→(1,1), 3→(2,1), 4→(3,1), 5→(4,1), 6→(4,1), 7→(5,2). -/
theorem useProgram_blur_tap_table (linkOk : Key → Bool) (d : Description)
    (s : CacheState) (p : Program)
    (hk : valueFor s (computeKey d) = some p) (hv : p.valid = true)
    (hb : d.mBlur = true) :
    (useProgram linkOk d s).2 =
      [ GLCmd.useProg p.progId
      , GLCmd.setUniforms p.progId
      , GLCmd.uniform1i p.progId "rHeight" d.hwHeight
      , GLCmd.uniform1i p.progId "rWidth" d.hwWidth
      , GLCmd.uniform1f p.progId "sx" d.sx
      , GLCmd.uniform1f p.progId "bx" d.bx
      , GLCmd.uniform1f p.progId "sy" d.sy
      , GLCmd.uniform1f p.progId "by" d.by_ ]
      ++ (if d.blurnum = 1 then
            [ GLCmd.uniform1f p.progId "iterator" 0
            , GLCmd.uniform1f p.progId "saturation" 1 ]
          else if d.blurnum = 2 then
            [ GLCmd.uniform1f p.progId "iterator" 1
            , GLCmd.uniform1f p.progId "saturation" 1 ]
          else if d.blurnum = 3 then
            [ GLCmd.uniform1f p.progId "iterator" 2
            , GLCmd.uniform1f p.progId "saturation" 1 ]
          else if d.blurnum = 4 then
            [ GLCmd.uniform1f p.progId "iterator" 3
            , GLCmd.uniform1f p.progId "saturation" 1 ]
          else if d.blurnum = 5 then
            [ GLCmd.uniform1f p.progId "iterator" 4
            , GLCmd.uniform1f p.progId "saturation" 1 ]
          else if d.blurnum = 6 then
            [ GLCmd.uniform1f p.progId "iterator" 4
            , GLCmd.uniform1f p.progId "saturation" 1 ]
          else if d.blurnum = 7 then
            [ GLCmd.uniform1f p.progId "iterator" 5
            , GLCmd.uniform1f p.progId "saturation" 2 ]
          else []) := by
  have hkb : (computeKey d).isBlur = true := by
    rw [(computeKey_fields d).2.2.2.2.2.2.1, hb]
  simp [useProgram, hk, useProgramUniforms, hv, hkb]

/-- C7 witness: the full uniform trace for a cached, linked blur program
with tap index 7. -/
theorem useProgram_blur_tap_table_witness :
    (useProgram (fun _ => true) dBlur7 sBlur7).2 =
      [ GLCmd.useProg pBlur7.progId
      , GLCmd.setUniforms pBlur7.progId
      , GLCmd.uniform1i pBlur7.progId "rHeight" dBlur7.hwHeight
      , GLCmd.uniform1i pBlur7.progId "rWidth" dBlur7.hwWidth
      , GLCmd.uniform1f pBlur7.progId "sx" dBlur7.sx
      , GLCmd.uniform1f pBlur7.progId "bx" dBlur7.bx
      , GLCmd.uniform1f pBlur7.progId "sy" dBlur7.sy
      , GLCmd.uniform1f pBlur7.progId "by" dBlur7.by_ ]
      ++ (if dBlur7.blurnum = 1 then
            [ GLCmd.uniform1f pBlur7.progId "iterator" 0
            , GLCmd.uniform1f pBlur7.progId "saturation" 1 ]
          else if dBlur7.blurnum = 2 then
            [ GLCmd.uniform1f pBlur7.progId "iterator" 1
            , GLCmd.uniform1f pBlur7.progId "saturation" 1 ]
          else if dBlur7.blurnum = 3 then
            [ GLCmd.uniform1f pBlur7.progId "iterator" 2
            , GLCmd.uniform1f pBlur7.progId "saturation" 1 ]
          else if dBlur7.blurnum = 4 then
            [ GLCmd.uniform1f pBlur7.progId "iterator" 3
            , GLCmd.uniform1f pBlur7.progId "saturation" 1 ]
          else if dBlur7.blurnum = 5 then
            [ GLCmd.uniform1f pBlur7.progId "iterator" 4
            , GLCmd.uniform1f pBlur7.progId "saturation" 1 ]
          else if dBlur7.blurnum = 6 then
            [ GLCmd.uniform1f pBlur7.progId "iterator" 4
            , GLCmd.uniform1f pBlur7.progId "saturation" 1 ]
          else if dBlur7.blurnum = 7 then
            [ GLCmd.uniform1f pBlur7.progId "iterator" 5
            , GLCmd.uniform1f pBlur7.progId "saturation" 2 ]
          else []) :=
  useProgram_blur_tap_table (fun _ => true) dBlur7 sBlur7 pBlur7 rfl rfl rfl

/-- C9: `changeUniform` never mutates the cache and never generates; when
the key's program is absent or the key has no blur it writes nothing;
otherwise it writes the tap index to `blurnum1` and zero to `blurnum2`
when the blur-number field is even, and the tap index to `blurnum2` and
zero to `blurnum1` when it is odd. -/
theorem changeUniform_spec (d : Description) (s : CacheState) :
    ((changeUniform d s).1 = s) ∧
    (∀ k2, GLCmd.generate k2 ∉ (changeUniform d s).2) ∧
    ((valueFor s (computeKey d) = none ∨ (computeKey d).isBlur = false) →
      changeUniform d s = (s, [])) ∧
    (∀ p, valueFor s (computeKey d) = some p → (computeKey d).isBlur = true →
      changeUniform d s = (s,
        if d.blurnum % 2 = 0 then
          [ GLCmd.uniform1i p.progId "blurnum1" d.blurnum
          , GLCmd.uniform1i p.progId "blurnum2" 0 ]
        else
          [ GLCmd.uniform1i p.progId "blurnum2" d.blurnum
          , GLCmd.uniform1i p.progId "blurnum1" 0 ])) := by
  refine ⟨changeUniform_fst d s, ?_, ?_, ?_⟩
  · intro k2
    simp only [changeUniform]
    cases hv : valueFor s (computeKey d)
    · simp [hv]
    · simp only [hv]
      split_ifs <;> simp
  · rintro (hnone | hblur)
    · simp [changeUniform, hnone]
    · simp only [changeUniform]
      cases hv : valueFor s (computeKey d)
      · simp [hv]
      · simp [hv, hblur]
  · intro p hp hblur
    simp [changeUniform, hp, hblur]
    split_ifs <;> rfl

/-- C9 witness: the odd-parity write at a cached blur program with tap
index 7, and the silent no-op on the empty cache. -/
theorem changeUniform_spec_witness :
    changeUniform dBlur7 sBlur7 = (sBlur7,
      [ GLCmd.uniform1i pBlur7.progId "blurnum2" dBlur7.blurnum
      , GLCmd.uniform1i pBlur7.progId "blurnum1" 0 ]) ∧
    changeUniform dBase emptyCache = (emptyCache, []) := by
  constructor
  · have h := (changeUniform_spec dBlur7 sBlur7).2.2.2 pBlur7 rfl rfl
    simpa [dBlur7, dBase] using h
  · exact (changeUniform_spec dBase emptyCache).2.2.1 (Or.inl rfl)

end Android
